import Mathlib

/-!
Shallow embedding of the rule-based answer scorer
(`supabase/functions/score-answer/index.ts`, function `scoreAnswer`) and of
the speaking-confidence estimator
(`supabase/functions/analyze-answers/index.ts`, transcript branch).
JavaScript numbers are modelled as rationals; JavaScript strings as Lean
strings, with the relevant string operations (toLowerCase, trim,
split-on-regex, includes, split-count) defined on the underlying character
lists.
-/

namespace Scorer

/-- Whitespace characters recognised by the tokenizer (model of the regex
class backslash-s on the ASCII range). -/
def isWsChar (c : Char) : Bool :=
  c == ' ' || c == '\t' || c == '\n' || c == '\r'

/-- Sentence-terminating punctuation (model of the regex class [.!?]). -/
def isSentChar (c : Char) : Bool :=
  c == '.' || c == '!' || c == '?'

/-- Strip leading and trailing whitespace (model of `String.prototype.trim`). -/
def trimWs (s : List Char) : List Char :=
  ((s.dropWhile isWsChar).reverse.dropWhile isWsChar).reverse

/-- Lowercase the characters of a string (model of `toLowerCase` on ASCII). -/
def lowerChars (t : String) : List Char :=
  t.data.map Char.toLower

/-- `const answer = answerText.toLowerCase().trim()`. -/
def answerNorm (t : String) : List Char :=
  trimWs (lowerChars t)

/-- Substring test (model of `hay.includes(pat)`): some suffix of `hay`
has `pat` as a prefix. -/
def jsIncludes (hay pat : List Char) : Bool :=
  hay.tails.any fun suf => pat.isPrefixOf suf

/-- Left-to-right scan counting non-overlapping occurrences of `pat`:
structural recursion on a fuel argument (one unit per character examined;
every step strictly shortens the text, so `s.length` fuel is exact). -/
def countOccGo (pat : List Char) : Nat → List Char → Nat
  | 0, _ => 0
  | _, [] => 0
  | fuel + 1, c :: rest =>
    if pat ≠ [] ∧ pat.isPrefixOf (c :: rest) then
      1 + countOccGo pat fuel (rest.drop (pat.length - 1))
    else
      countOccGo pat fuel rest

/-- Number of non-overlapping, leftmost-first occurrences of `pat` in `s`
(model of `s.split(pat).length - 1` for non-empty `pat`). -/
def countOcc (pat : List Char) (s : List Char) : Nat :=
  countOccGo pat s.length s

/-- `answer.split(/\s+/).filter(w => w.length > 0)`. -/
def wordsOfChars (a : List Char) : List (List Char) :=
  (a.splitOnP isWsChar).filter (fun w => w ≠ [])

/-- The scorer's word list of the normalized answer. -/
def wordsOf (t : String) : List (List Char) :=
  wordsOfChars (answerNorm t)

/-- `const wordCount = words.length`. -/
def wordCount (t : String) : Nat :=
  (wordsOf t).length

/-- `answer.split(/[.!?]+/).filter(s => s.trim().length > 0)`. -/
def sentencesOf (t : String) : List (List Char) :=
  ((answerNorm t).splitOnP isSentChar).filter (fun s => trimWs s ≠ [])

/-- Number of (non-blank) sentences. -/
def sentenceCount (t : String) : Nat :=
  (sentencesOf t).length

/-- `expectedKeywords.filter(kw => answer.includes(kw.toLowerCase()))`. -/
def matchedKeywords (t : String) (kws : List String) : List String :=
  kws.filter fun kw => jsIncludes (answerNorm t) (lowerChars kw)

/-- `expectedKeywords.filter(kw => !answer.includes(kw.toLowerCase()))`. -/
def missingKeywords (t : String) (kws : List String) : List String :=
  kws.filter fun kw => !jsIncludes (answerNorm t) (lowerChars kw)

/-- `keywordRatio = expectedKeywords.length > 0 ? matched/expected : 0`. -/
def keywordRatio (t : String) (kws : List String) : ℚ :=
  if 0 < kws.length then
    ((matchedKeywords t kws).length : ℚ) / (kws.length : ℚ)
  else 0

/-- `keywordScore = keywordRatio * 10`. -/
def keywordScore (t : String) (kws : List String) : ℚ :=
  keywordRatio t kws * 10

/-- The length-score branch chain of `scoreAnswer` (source lines 39-48). -/
def lengthScore (t : String) (ideal : ℚ) : ℚ :=
  if (wordCount t : ℚ) < ideal * (1/2) then
    ((wordCount t : ℚ) / (ideal * (1/2))) * 6
  else if (wordCount t : ℚ) > ideal * 2 then 7
  else if ideal * (8/10) ≤ (wordCount t : ℚ) ∧ (wordCount t : ℚ) ≤ ideal * (15/10) then 10
  else 8

/-- Transition words checked by the structure heuristic. -/
def transitionWords : List String :=
  ["first", "second", "then", "next", "finally", "however", "therefore",
   "because", "for example"]

/-- The structure-score accumulation of `scoreAnswer` (source lines 52-68):
base 5, sentence-count bonus, structural-marker bonus, transition-word
bonus, capped at 10. -/
def structureScore (t : String) : ℚ :=
  let s1 : ℚ := 5 +
    (if 3 ≤ sentenceCount t then 2 else if 2 ≤ sentenceCount t then 1 else 0)
  let s2 : ℚ := s1 +
    (if jsIncludes (answerNorm t) ['-'] ∨ jsIncludes (answerNorm t) "â€¢".data ∨
        jsIncludes (answerNorm t) "1.".data then 2 else 0)
  let s3 : ℚ := s2 +
    (if transitionWords.any (fun tw => jsIncludes (answerNorm t) tw.data) then 1 else 0)
  min 10 s3

/-- `avgSentenceLength = sentences.length > 0 ? wordCount/sentences.length : wordCount`. -/
def avgSentenceLength (t : String) : ℚ :=
  if 0 < sentenceCount t then (wordCount t : ℚ) / (sentenceCount t : ℚ)
  else (wordCount t : ℚ)

/-- The scorer's filler-word table. -/
def fillerWords : List String :=
  ["um", "uh", "like", "you know", "basically", "actually"]

/-- `fillerWords.reduce((count, fw) => count + (answer.split(fw).length - 1), 0)`. -/
def fillerCount (t : String) : Nat :=
  fillerWords.foldl (fun acc fw => acc + countOcc fw.data (answerNorm t)) 0

/-- The clarity-score accumulation given the average sentence length and the
filler count (source lines 72-91): base 7, sentence-length adjustment,
filler adjustment, clamped to [0, 10]. -/
def clarityFromAvg (avg : ℚ) (fc : Nat) : ℚ :=
  let c1 : ℚ := 7 +
    (if 10 ≤ avg ∧ avg ≤ 30 then 2 else if avg < 10 then 1 else 0)
  let c2 : ℚ := if fc = 0 then c1 + 1 else if 5 < fc then c1 - 2 else c1
  max 0 (min 10 c2)

/-- The clarity score of an answer. -/
def clarityScore (t : String) : ℚ :=
  clarityFromAvg (avgSentenceLength t) (fillerCount t)

/-- `totalScore = keywordScore*0.4 + lengthScore*0.2 + structureScore*0.2 + clarityScore*0.2`. -/
def totalScore (t : String) (kws : List String) (ideal : ℚ) : ℚ :=
  keywordScore t kws * (2/5) + lengthScore t ideal * (1/5) +
    structureScore t * (1/5) + clarityScore t * (1/5)

/-- `Math.round(x * 10) / 10`. -/
def round1 (x : ℚ) : ℚ :=
  ((round (x * 10) : ℤ) : ℚ) / 10

/-- The three feedback arrays accumulated by `scoreAnswer`. -/
structure FB where
  strengths : List String
  weaknesses : List String
  suggestions : List String
deriving DecidableEq

/-- Pointwise concatenation of feedback contributions, in push order. -/
def FB.append (a b : FB) : FB :=
  ⟨a.strengths ++ b.strengths, a.weaknesses ++ b.weaknesses,
   a.suggestions ++ b.suggestions⟩

/-- Keyword feedback block (source lines 107-118), as a function of the
keyword ratio and of the missing-keyword list. -/
def kwFeedback (ratio : ℚ) (missing : List String) : FB :=
  if ratio ≥ 7/10 then
    ⟨["Covered most of the key technical concepts"], [], []⟩
  else if ratio ≥ 4/10 then
    ⟨[], ["Some important concepts were missing"],
     if 0 < missing.length ∧ missing.length ≤ 3 then
       ["Consider discussing: " ++ String.intercalate ", " (missing.take 3)]
     else []⟩
  else
    ⟨[], ["Many key concepts were not addressed"],
     ["Review the fundamental concepts related to this topic"]⟩

/-- Length feedback block (source lines 121-129). -/
def lenFeedback (wc : Nat) (ideal : ℚ) : FB :=
  if (wc : ℚ) < ideal * (1/2) then
    ⟨[], ["Answer was too brief"],
     ["Provide more detail and examples in your response"]⟩
  else if ideal * (8/10) ≤ (wc : ℚ) ∧ (wc : ℚ) ≤ ideal * (15/10) then
    ⟨["Good answer length with appropriate detail"], [], []⟩
  else if (wc : ℚ) > ideal * 2 then
    ⟨[], ["Answer was longer than necessary"],
     ["Try to be more concise while covering key points"]⟩
  else ⟨[], [], []⟩

/-- Structure feedback block (source lines 132-137). -/
def structFeedback (stS : ℚ) : FB :=
  if stS ≥ 8 then
    ⟨["Well-structured response with clear organization"], [], []⟩
  else if stS < 6 then
    ⟨[], ["Answer could be better organized"],
     ["Use a structured approach: introduce the concept, explain details, give examples"]⟩
  else ⟨[], [], []⟩

/-- Clarity feedback block (source lines 140-145): `if (clarityScore >= 8)
... else if (fillerCount > 3) ...`. -/
def clarFeedback (clS : ℚ) (fc : Nat) : FB :=
  if clS ≥ 8 then
    ⟨["Clear and easy to understand explanation"], [], []⟩
  else if 3 < fc then
    ⟨[], ["Too many filler words detected"],
     ["Practice speaking more directly without filler words"]⟩
  else ⟨[], [], []⟩

/-- All four feedback blocks, pushed in source order. -/
def feedbackOf (ratio : ℚ) (missing : List String) (wc : Nat) (ideal : ℚ)
    (stS clS : ℚ) (fc : Nat) : FB :=
  (kwFeedback ratio missing).append
    ((lenFeedback wc ideal).append
      ((structFeedback stS).append (clarFeedback clS fc)))

/-- The record returned by `scoreAnswer` (`structure` is the source's field
name for the structure sub-score; it is a Lean keyword, hence
`structureDim`). -/
structure ScoreResult where
  score : ℚ
  technical_accuracy : ℚ
  clarity : ℚ
  structureDim : ℚ
  strengths : List String
  weaknesses : List String
  suggestions : List String
deriving DecidableEq

/-- The rule-based scorer `scoreAnswer(answerText, expectedKeywords,
idealLength)` of `supabase/functions/score-answer/index.ts`. -/
def scoreAnswer (t : String) (kws : List String) (ideal : ℚ) : ScoreResult :=
  let fb := feedbackOf (keywordRatio t kws) (missingKeywords t kws)
    (wordCount t) ideal (structureScore t) (clarityScore t) (fillerCount t)
  { score := round1 (totalScore t kws ideal)
    technical_accuracy := round1 (keywordScore t kws)
    clarity := round1 (clarityScore t)
    structureDim := round1 (structureScore t)
    strengths := fb.strengths
    weaknesses := fb.weaknesses
    suggestions := fb.suggestions }

/-! ### Voice confidence estimator
(`supabase/functions/analyze-answers/index.ts`, lines 106-127, the
`answer.transcript` branch). -/

namespace Voice

/-- `transcript.split(/\s+/).filter(Boolean)` — the raw transcript is
neither lowercased nor trimmed before tokenization. -/
def vWords (t : String) : List (List Char) :=
  wordsOfChars t.data

/-- `const wordCount = words.length`. -/
def vWordCount (t : String) : Nat :=
  (vWords t).length

/-- `wordsPerMinute = wordCount * 2` (rough estimate for a 30-second answer). -/
def wordsPerMinute (t : String) : Nat :=
  vWordCount t * 2

/-- The estimator's 9-entry filler table. -/
def voiceFillerWords : List String :=
  ["um", "uh", "like", "you know", "basically", "actually", "literally",
   "so", "well"]

/-- `w.toLowerCase().replace(/[.,!?]/g, '')`: lowercase, then delete every
occurrence of the four punctuation characters anywhere in the token. -/
def cleanToken (w : List Char) : List Char :=
  (w.map Char.toLower).filter fun c =>
    !(c == '.' || c == ',' || c == '!' || c == '?')

/-- `words.filter(w => fillerWords.includes(clean(w))).length`. -/
def fillerWordCount (t : String) : Nat :=
  ((vWords t).filter fun w =>
    (voiceFillerWords.map String.data).contains (cleanToken w)).length

/-- `rateScore = Math.max(0, 100 - Math.abs(wordsPerMinute - 135) * 0.5)`. -/
def rateScore (t : String) : ℚ :=
  max 0 (100 - |(wordsPerMinute t : ℚ) - 135| * (1/2))

/-- `fillerRatio = fillerWordCount / Math.max(wordCount, 1)`. -/
def fillerRatio (t : String) : ℚ :=
  (fillerWordCount t : ℚ) / ((max (vWordCount t) 1 : ℕ) : ℚ)

/-- `fillerScore = Math.max(0, 100 - fillerRatio * 500)`. -/
def fillerScore (t : String) : ℚ :=
  max 0 (100 - fillerRatio t * 500)

/-- `confidenceScore = Math.round(rateScore*0.4 + fillerScore*0.3 + clarity*10*0.3)`. -/
def confidenceScore (t : String) (clarity : ℚ) : ℤ :=
  round (rateScore t * (2/5) + fillerScore t * (3/10) + clarity * 10 * (3/10))

/-- Filler-token count as the specification document words it: a token
counts when, after stripping TRAILING punctuation only (and lowercasing),
it equals an entry of the filler table.  Stated for comparison with the
source's `fillerWordCount`, which deletes the punctuation characters at
every position of the token. -/
def cleanTokenTrailing (w : List Char) : List Char :=
  ((w.map Char.toLower).reverse.dropWhile
    (fun c => c == '.' || c == ',' || c == '!' || c == '?')).reverse

/-- Spec-worded filler count: tokens whose trailing-stripped form is a
filler. -/
def fillerWordCountTrailing (t : String) : Nat :=
  ((vWords t).filter fun w =>
    (voiceFillerWords.map String.data).contains (cleanTokenTrailing w)).length

/-- Alternative membership predicate for the amended C8 statement: the
cleaned token is literally one of the nine fillers. -/
def isVoiceFiller (w : List Char) : Bool :=
  w == "um".data || w == "uh".data || w == "like".data ||
  w == "you know".data || w == "basically".data || w == "actually".data ||
  w == "literally".data || w == "so".data || w == "well".data

end Voice

/-! ### Division-guarded variant of the scorer, for the no-failure-modes
claim: every division of `scoreAnswer` is made to fail explicitly (return
`none`) when its denominator is zero. -/

/-- Division that fails instead of defaulting on a zero denominator. -/
def guardedDiv (a b : ℚ) : Option ℚ :=
  if b = 0 then none else some (a / b)

/-- `scoreAnswer` with every division routed through `guardedDiv`:
reaching a division by zero yields `none` instead of a record. -/
def scoreAnswerChecked (t : String) (kws : List String) (ideal : ℚ) :
    Option ScoreResult :=
  (if 0 < kws.length then
      guardedDiv ((matchedKeywords t kws).length : ℚ) (kws.length : ℚ)
    else some 0).bind fun ratio =>
  (if (wordCount t : ℚ) < ideal * (1/2) then
      (guardedDiv (wordCount t : ℚ) (ideal * (1/2))).bind fun r => some (r * 6)
    else if (wordCount t : ℚ) > ideal * 2 then some 7
    else if ideal * (8/10) ≤ (wordCount t : ℚ) ∧ (wordCount t : ℚ) ≤ ideal * (15/10) then some 10
    else some 8).bind fun lenS =>
  (if 0 < sentenceCount t then
      guardedDiv (wordCount t : ℚ) (sentenceCount t : ℚ)
    else some (wordCount t : ℚ)).bind fun avg =>
  let kwS := ratio * 10
  let stS := structureScore t
  let clS := clarityFromAvg avg (fillerCount t)
  let fb := feedbackOf ratio (missingKeywords t kws) (wordCount t) ideal
    stS clS (fillerCount t)
  some
    { score := round1 (kwS * (2/5) + lenS * (1/5) + stS * (1/5) + clS * (1/5))
      technical_accuracy := round1 kwS
      clarity := round1 clS
      structureDim := round1 stS
      strengths := fb.strengths
      weaknesses := fb.weaknesses
      suggestions := fb.suggestions }

/-! ### Concrete scenario inputs used by the claims -/

/-- The answer text of the spec's concrete scoring scenario. -/
def answerC2 : String :=
  "Binary search works by repeatedly dividing the sorted array in half. First compare the middle element, then recurse into the correct half. For example, searching for 7 in [1,3,5,7,9] takes log2(5) steps."

/-- The expected keywords of the spec's concrete scoring scenario. -/
def keywordsC2 : List String := ["binary search", "divide", "sorted", "logarithmic"]

/-- A 14-word answer with 4 filler occurrences and clarity ≥ 8:
exercises the clarity/filler feedback branch. -/
def answerC4 : String :=
  "um um um um one two three four five six seven eight nine ten."

/-- A transcript with 67 whitespace tokens, 3 of which are fillers. -/
def transcriptC6 : String :=
  "um uh like w w w w w w w w w w w w w w w w w w w w w w w w w w w w w w w w w w w w w w w w w w w w w w w w w w w w w w w w w w w w w w w w"

set_option maxRecDepth 10000

/-! ### Helper lemmas -/

theorem round_mono_q {x y : ℚ} (h : x ≤ y) : round x ≤ round y := by
  rw [round_eq, round_eq]
  exact Int.floor_le_floor (by linarith)

theorem round1_mono {x y : ℚ} (h : x ≤ y) : round1 x ≤ round1 y := by
  unfold round1
  have h10 : round (x * 10) ≤ round (y * 10) := round_mono_q (by linarith)
  have : ((round (x * 10) : ℤ) : ℚ) ≤ ((round (y * 10) : ℤ) : ℚ) := by
    exact_mod_cast h10
  linarith

theorem intCast_le_round1 {x : ℚ} {n : ℤ} (h : (n : ℚ) ≤ x) :
    (n : ℚ) ≤ round1 x := by
  unfold round1
  have h1 : ((10 * n : ℤ) : ℚ) ≤ x * 10 := by push_cast; linarith
  have h2 : (10 * n : ℤ) ≤ round (x * 10) := by
    calc (10 * n : ℤ) = round ((10 * n : ℤ) : ℚ) := (round_intCast _).symm
    _ ≤ round (x * 10) := round_mono_q h1
  have : ((10 * n : ℤ) : ℚ) ≤ ((round (x * 10) : ℤ) : ℚ) := by exact_mod_cast h2
  push_cast at this
  linarith

theorem round1_le_intCast {x : ℚ} {n : ℤ} (h : x ≤ (n : ℚ)) :
    round1 x ≤ (n : ℚ) := by
  unfold round1
  have h1 : x * 10 ≤ ((10 * n : ℤ) : ℚ) := by push_cast; linarith
  have h2 : round (x * 10) ≤ (10 * n : ℤ) := by
    calc round (x * 10) ≤ round ((10 * n : ℤ) : ℚ) := round_mono_q h1
    _ = (10 * n : ℤ) := round_intCast _
  have : ((round (x * 10) : ℤ) : ℚ) ≤ ((10 * n : ℤ) : ℚ) := by exact_mod_cast h2
  push_cast at this
  linarith

theorem round1_nonneg {x : ℚ} (h : 0 ≤ x) : 0 ≤ round1 x := by
  have h' : ((0:ℤ) : ℚ) ≤ x := by exact_mod_cast h
  have := intCast_le_round1 h'
  exact_mod_cast this

theorem round1_ge {x : ℚ} (n : ℤ) (h : (n:ℚ) ≤ x) : (n:ℚ) ≤ round1 x :=
  intCast_le_round1 h

theorem round1_le {x : ℚ} (n : ℤ) (h : x ≤ (n:ℚ)) : round1 x ≤ (n:ℚ) :=
  round1_le_intCast h

theorem scoreAnswer_score (t : String) (kws : List String) (ideal : ℚ) :
    (scoreAnswer t kws ideal).score = round1 (totalScore t kws ideal) := rfl

theorem scoreAnswer_ta (t : String) (kws : List String) (ideal : ℚ) :
    (scoreAnswer t kws ideal).technical_accuracy = round1 (keywordScore t kws) := rfl

theorem scoreAnswer_clarity (t : String) (kws : List String) (ideal : ℚ) :
    (scoreAnswer t kws ideal).clarity = round1 (clarityScore t) := rfl

theorem scoreAnswer_structure (t : String) (kws : List String) (ideal : ℚ) :
    (scoreAnswer t kws ideal).structureDim = round1 (structureScore t) := rfl

theorem keywordRatio_nonneg (t : String) (kws : List String) :
    0 ≤ keywordRatio t kws := by
  unfold keywordRatio
  split_ifs with h
  · positivity
  · exact le_refl 0

theorem keywordRatio_le_one (t : String) (kws : List String) :
    keywordRatio t kws ≤ 1 := by
  unfold keywordRatio
  split_ifs with h
  · rw [div_le_one (by exact_mod_cast h)]
    exact_mod_cast List.length_filter_le _ _
  · norm_num

theorem keywordScore_nonneg (t : String) (kws : List String) :
    0 ≤ keywordScore t kws := by
  unfold keywordScore
  have := keywordRatio_nonneg t kws
  linarith

theorem keywordScore_le_ten (t : String) (kws : List String) :
    keywordScore t kws ≤ 10 := by
  unfold keywordScore
  have := keywordRatio_le_one t kws
  linarith

theorem lengthScore_nonneg (t : String) (ideal : ℚ) :
    0 ≤ lengthScore t ideal := by
  unfold lengthScore
  split_ifs with h1 h2 h3
  · have hd : (0:ℚ) < ideal * (1/2) := lt_of_le_of_lt (by positivity) h1
    positivity
  · norm_num
  · norm_num
  · norm_num

theorem lengthScore_le_ten (t : String) (ideal : ℚ) :
    lengthScore t ideal ≤ 10 := by
  unfold lengthScore
  split_ifs with h1 h2 h3
  · have hd : (0:ℚ) < ideal * (1/2) := lt_of_le_of_lt (by positivity) h1
    have hq : (wordCount t : ℚ) / (ideal * (1/2)) ≤ 1 := by
      rw [div_le_one hd]; linarith
    have hq0 : 0 ≤ (wordCount t : ℚ) / (ideal * (1/2)) := by positivity
    linarith
  · norm_num
  · norm_num
  · norm_num

theorem structureScore_bounds (t : String) :
    5 ≤ structureScore t ∧ structureScore t ≤ 10 := by
  unfold structureScore
  refine ⟨?_, min_le_left _ _⟩
  simp only
  refine le_min (by norm_num) ?_
  split_ifs <;> norm_num

theorem clarityFromAvg_bounds (avg : ℚ) (fc : Nat) :
    5 ≤ clarityFromAvg avg fc ∧ clarityFromAvg avg fc ≤ 10 := by
  unfold clarityFromAvg
  constructor
  · apply le_max_of_le_right
    apply le_min (by norm_num)
    split_ifs <;> norm_num
  · apply max_le (by norm_num)
    exact min_le_left _ _

theorem totalScore_bounds (t : String) (kws : List String) (ideal : ℚ) :
    2 ≤ totalScore t kws ideal ∧ totalScore t kws ideal ≤ 10 := by
  unfold totalScore clarityScore
  have h1 := keywordScore_nonneg t kws
  have h2 := keywordScore_le_ten t kws
  have h3 := lengthScore_nonneg t ideal
  have h4 := lengthScore_le_ten t ideal
  have h5 := structureScore_bounds t
  have h6 := clarityFromAvg_bounds (avgSentenceLength t) (fillerCount t)
  constructor <;> [nlinarith [h5.1, h6.1]; nlinarith [h5.2, h6.2]]

theorem rateScore_bounds (t : String) :
    0 ≤ Voice.rateScore t ∧ Voice.rateScore t ≤ 100 := by
  unfold Voice.rateScore
  constructor
  · exact le_max_left _ _
  · apply max_le (by norm_num)
    have : (0:ℚ) ≤ |(Voice.wordsPerMinute t : ℚ) - 135| := abs_nonneg _
    linarith

theorem fillerRatio_nonneg (t : String) : 0 ≤ Voice.fillerRatio t := by
  unfold Voice.fillerRatio
  positivity

theorem fillerScore_bounds (t : String) :
    0 ≤ Voice.fillerScore t ∧ Voice.fillerScore t ≤ 100 := by
  unfold Voice.fillerScore
  constructor
  · exact le_max_left _ _
  · apply max_le (by norm_num)
    have := fillerRatio_nonneg t
    nlinarith

theorem confidenceScore_bounds (t : String) (cl : ℚ)
    (h0 : 0 ≤ cl) (h10 : cl ≤ 10) :
    0 ≤ Voice.confidenceScore t cl ∧ Voice.confidenceScore t cl ≤ 100 := by
  unfold Voice.confidenceScore
  have hr := rateScore_bounds t
  have hf := fillerScore_bounds t
  constructor
  · have : (0:ℚ) ≤ Voice.rateScore t * (2/5) + Voice.fillerScore t * (3/10) +
        cl * 10 * (3/10) := by
      nlinarith [hr.1, hf.1]
    calc (0:ℤ) = round (0:ℚ) := by rw [round_zero]
    _ ≤ _ := round_mono_q this
  · have : Voice.rateScore t * (2/5) + Voice.fillerScore t * (3/10) +
        cl * 10 * (3/10) ≤ (100:ℚ) := by
      nlinarith [hr.2, hf.2]
    calc round (Voice.rateScore t * (2/5) + Voice.fillerScore t * (3/10) +
          cl * 10 * (3/10))
        ≤ round (100:ℚ) := round_mono_q this
    _ = 100 := by norm_num [round_eq]

theorem keywordRatio_mono {t : String} {kws1 kws2 : List String}
    (hlen : kws1.length = kws2.length)
    (hm : (matchedKeywords t kws1).length ≤ (matchedKeywords t kws2).length) :
    keywordRatio t kws1 ≤ keywordRatio t kws2 := by
  unfold keywordRatio
  rw [hlen]
  split_ifs with h
  · exact div_le_div_of_nonneg_right (by exact_mod_cast hm) (by positivity)
  · exact le_refl 0

theorem clarityFromAvg_le_of_many {avg : ℚ} {fc : Nat} (h : 5 < fc) :
    clarityFromAvg avg fc ≤ 7 := by
  unfold clarityFromAvg
  refine max_le (by norm_num) (le_trans (min_le_right 10 _) ?_)
  split_ifs <;> first | omega | norm_num

theorem clarityFromAvg_ge_of_none (avg : ℚ) : 8 ≤ clarityFromAvg avg 0 := by
  unfold clarityFromAvg
  apply le_max_of_le_right
  refine le_min (by norm_num) ?_
  split_ifs <;> first | omega | norm_num

/-! ### Claim theorems -/

/-- C1: for every answer text, expected-keyword list and idealAnswerLength,
the scorer's `score`, `technical_accuracy`, `clarity` and `structure`
outputs all lie in [0, 10]; and for every transcript, the voice
estimator's `confidenceScore` lies in [0, 100] whenever its clarity input
lies in [0, 10]. -/
theorem C1_output_and_confidence_bounds (t : String) (kws : List String)
    (ideal : ℚ) (tr : String) (cl : ℚ) (h0 : 0 ≤ cl) (h10 : cl ≤ 10) :
    (0 ≤ (scoreAnswer t kws ideal).score ∧ (scoreAnswer t kws ideal).score ≤ 10) ∧
    (0 ≤ (scoreAnswer t kws ideal).technical_accuracy ∧
      (scoreAnswer t kws ideal).technical_accuracy ≤ 10) ∧
    (0 ≤ (scoreAnswer t kws ideal).clarity ∧ (scoreAnswer t kws ideal).clarity ≤ 10) ∧
    (0 ≤ (scoreAnswer t kws ideal).structureDim ∧
      (scoreAnswer t kws ideal).structureDim ≤ 10) ∧
    (0 ≤ Voice.confidenceScore tr cl ∧ Voice.confidenceScore tr cl ≤ 100) := by
  have hts := totalScore_bounds t kws ideal
  have hst := structureScore_bounds t
  have hcl := clarityFromAvg_bounds (avgSentenceLength t) (fillerCount t)
  have hconf := confidenceScore_bounds tr cl h0 h10
  refine ⟨⟨?_, ?_⟩, ⟨?_, ?_⟩, ⟨?_, ?_⟩, ⟨?_, ?_⟩, hconf⟩
  · rw [scoreAnswer_score]; exact round1_nonneg (by linarith [hts.1])
  · rw [scoreAnswer_score]
    have := round1_le (x := totalScore t kws ideal) 10 (by exact_mod_cast hts.2)
    exact_mod_cast this
  · rw [scoreAnswer_ta]; exact round1_nonneg (keywordScore_nonneg t kws)
  · rw [scoreAnswer_ta]
    have := round1_le (x := keywordScore t kws) 10
      (by exact_mod_cast keywordScore_le_ten t kws)
    exact_mod_cast this
  · rw [scoreAnswer_clarity]
    exact round1_nonneg (by unfold clarityScore; linarith [hcl.1])
  · rw [scoreAnswer_clarity]
    have hx : clarityScore t ≤ ((10:ℤ):ℚ) := by
      unfold clarityScore; exact_mod_cast hcl.2
    have := round1_le 10 hx
    exact_mod_cast this
  · rw [scoreAnswer_structure]; exact round1_nonneg (by linarith [hst.1])
  · rw [scoreAnswer_structure]
    have hx : structureScore t ≤ ((10:ℤ):ℚ) := by exact_mod_cast hst.2
    have := round1_le 10 hx
    exact_mod_cast this

/-- Witness for C1 at a concrete input. -/
theorem C1_output_and_confidence_bounds_witness :
    (0:ℚ) ≤ 8 ∧ (8:ℚ) ≤ 10 ∧
    ((0 ≤ (scoreAnswer "hello" ["a"] 40).score ∧
      (scoreAnswer "hello" ["a"] 40).score ≤ 10) ∧
    (0 ≤ (scoreAnswer "hello" ["a"] 40).technical_accuracy ∧
      (scoreAnswer "hello" ["a"] 40).technical_accuracy ≤ 10) ∧
    (0 ≤ (scoreAnswer "hello" ["a"] 40).clarity ∧
      (scoreAnswer "hello" ["a"] 40).clarity ≤ 10) ∧
    (0 ≤ (scoreAnswer "hello" ["a"] 40).structureDim ∧
      (scoreAnswer "hello" ["a"] 40).structureDim ≤ 10) ∧
    (0 ≤ Voice.confidenceScore "um hi" 8 ∧ Voice.confidenceScore "um hi" 8 ≤ 100)) :=
  ⟨by decide, by decide,
   C1_output_and_confidence_bounds "hello" ["a"] 40 "um hi" 8 (by decide) (by decide)⟩

/-- C3: for a fixed answer text and equally long keyword lists, a list with
at least as many matched keywords yields an at-least-as-large
`technical_accuracy` and total `score`. -/
theorem C3_matched_keywords_monotone (t : String) (kws1 kws2 : List String)
    (ideal : ℚ) (hlen : kws1.length = kws2.length)
    (hm : (matchedKeywords t kws1).length ≤ (matchedKeywords t kws2).length) :
    (scoreAnswer t kws1 ideal).technical_accuracy ≤
      (scoreAnswer t kws2 ideal).technical_accuracy ∧
    (scoreAnswer t kws1 ideal).score ≤ (scoreAnswer t kws2 ideal).score := by
  have hr := keywordRatio_mono hlen hm
  have hkw : keywordScore t kws1 ≤ keywordScore t kws2 := by
    unfold keywordScore; linarith
  constructor
  · rw [scoreAnswer_ta, scoreAnswer_ta]; exact round1_mono hkw
  · rw [scoreAnswer_score, scoreAnswer_score]
    apply round1_mono
    unfold totalScore
    linarith

/-- Witness for C3 at a concrete input. -/
theorem C3_matched_keywords_monotone_witness :
    (["divide", "log"] : List String).length =
      (["binary", "sorted"] : List String).length ∧
    (matchedKeywords "binary sorted" ["divide", "log"]).length ≤
      (matchedKeywords "binary sorted" ["binary", "sorted"]).length ∧
    ((scoreAnswer "binary sorted" ["divide", "log"] 40).technical_accuracy ≤
      (scoreAnswer "binary sorted" ["binary", "sorted"] 40).technical_accuracy ∧
    (scoreAnswer "binary sorted" ["divide", "log"] 40).score ≤
      (scoreAnswer "binary sorted" ["binary", "sorted"] 40).score) :=
  ⟨by decide, by decide,
   C3_matched_keywords_monotone "binary sorted" ["divide", "log"]
     ["binary", "sorted"] 40 (by decide) (by decide)⟩

/-- C7: an answer whose filler count is 6 (six occurrences of "um") gets a
strictly lower clarity sub-score than an answer with zero filler
occurrences, all else equal. -/
theorem C7_filler_sensitivity (t1 t2 : String) (kws : List String) (ideal : ℚ)
    (h1 : fillerCount t1 = 6) (h2 : fillerCount t2 = 0) :
    (scoreAnswer t1 kws ideal).clarity < (scoreAnswer t2 kws ideal).clarity := by
  rw [scoreAnswer_clarity, scoreAnswer_clarity]
  have ha : clarityScore t1 ≤ ((7:ℤ):ℚ) := by
    unfold clarityScore; rw [h1]
    exact_mod_cast clarityFromAvg_le_of_many (by norm_num)
  have hb : ((8:ℤ):ℚ) ≤ clarityScore t2 := by
    unfold clarityScore; rw [h2]
    exact_mod_cast clarityFromAvg_ge_of_none _
  have hA := round1_le 7 ha
  have hB := round1_ge 8 hb
  push_cast at hA hB
  linarith

/-- Witness for C7 at a concrete input. -/
theorem C7_filler_sensitivity_witness :
    fillerCount "um um um um um um" = 6 ∧ fillerCount "hello" = 0 ∧
    (scoreAnswer "um um um um um um" ["a"] 40).clarity <
      (scoreAnswer "hello" ["a"] 40).clarity :=
  ⟨by decide, by decide,
   C7_filler_sensitivity "um um um um um um" "hello" ["a"] 40
     (by decide) (by decide)⟩

/-- C10: the structure and clarity sub-scores always lie in [5, 10], so the
total score is always at least 2.0. -/
theorem C10_structure_clarity_floor (t : String) (kws : List String) (ideal : ℚ) :
    (5 ≤ (scoreAnswer t kws ideal).structureDim ∧
      (scoreAnswer t kws ideal).structureDim ≤ 10) ∧
    (5 ≤ (scoreAnswer t kws ideal).clarity ∧
      (scoreAnswer t kws ideal).clarity ≤ 10) ∧
    2 ≤ (scoreAnswer t kws ideal).score := by
  have hst := structureScore_bounds t
  have hcl := clarityFromAvg_bounds (avgSentenceLength t) (fillerCount t)
  have hts := totalScore_bounds t kws ideal
  refine ⟨⟨?_, ?_⟩, ⟨?_, ?_⟩, ?_⟩
  · rw [scoreAnswer_structure]
    have := round1_ge (x := structureScore t) 5 (by exact_mod_cast hst.1)
    exact_mod_cast this
  · rw [scoreAnswer_structure]
    have := round1_le (x := structureScore t) 10 (by exact_mod_cast hst.2)
    exact_mod_cast this
  · rw [scoreAnswer_clarity]
    have h5 : ((5:ℤ):ℚ) ≤ clarityScore t := by
      unfold clarityScore; exact_mod_cast hcl.1
    have := round1_ge 5 h5
    exact_mod_cast this
  · rw [scoreAnswer_clarity]
    have h10 : clarityScore t ≤ ((10:ℤ):ℚ) := by
      unfold clarityScore; exact_mod_cast hcl.2
    have := round1_le 10 h10
    exact_mod_cast this
  · rw [scoreAnswer_score]
    have := round1_ge (x := totalScore t kws ideal) 2 (by exact_mod_cast hts.1)
    exact_mod_cast this

/-- C9: with every division explicitly guarded, the scorer reaches no
division by zero under the positive ideal-length precondition: the guarded
variant returns exactly `some` of the total function's record. -/
theorem C9_scorer_total_guarded (t : String) (kws : List String) (ideal : ℚ)
    (h : 0 < ideal) :
    scoreAnswerChecked t kws ideal = some (scoreAnswer t kws ideal) := by
  have hratio : (if 0 < kws.length then
      guardedDiv ((matchedKeywords t kws).length : ℚ) (kws.length : ℚ)
    else some 0) = some (keywordRatio t kws) := by
    unfold guardedDiv keywordRatio
    split_ifs with h1 h2
    · exfalso
      have : (kws.length : ℚ) ≠ 0 := by
        exact_mod_cast Nat.pos_iff_ne_zero.mp h1
      exact this h2
    · rfl
    · rfl
  have hlen : (if (wordCount t : ℚ) < ideal * (1/2) then
      (guardedDiv (wordCount t : ℚ) (ideal * (1/2))).bind fun r => some (r * 6)
    else if (wordCount t : ℚ) > ideal * 2 then some 7
    else if ideal * (8/10) ≤ (wordCount t : ℚ) ∧
        (wordCount t : ℚ) ≤ ideal * (15/10) then some 10
    else some 8) = some (lengthScore t ideal) := by
    unfold guardedDiv lengthScore
    split_ifs with h1 h2
    · exfalso
      have : ideal * (1/2) ≠ 0 := by positivity
      exact this h2
    · rfl
    · rfl
    · rfl
    · rfl
  have havg : (if 0 < sentenceCount t then
      guardedDiv (wordCount t : ℚ) (sentenceCount t : ℚ)
    else some (wordCount t : ℚ)) = some (avgSentenceLength t) := by
    unfold guardedDiv avgSentenceLength
    split_ifs with h1 h2
    · exfalso
      have : (sentenceCount t : ℚ) ≠ 0 := by
        exact_mod_cast Nat.pos_iff_ne_zero.mp h1
      exact this h2
    · rfl
    · rfl
  unfold scoreAnswerChecked
  rw [hratio]
  simp only [Option.some_bind]
  rw [hlen]
  simp only [Option.some_bind]
  rw [havg]
  simp only [Option.some_bind]
  rfl

/-- Witness for C9 at a concrete input. -/
theorem C9_scorer_total_guarded_witness :
    (0:ℚ) < 40 ∧
    scoreAnswerChecked "hello" ["a"] 40 = some (scoreAnswer "hello" ["a"] 40) :=
  ⟨by decide, C9_scorer_total_guarded "hello" ["a"] 40 (by decide)⟩

theorem scoreAnswer_strengths (t : String) (kws : List String) (ideal : ℚ) :
    (scoreAnswer t kws ideal).strengths =
      (feedbackOf (keywordRatio t kws) (missingKeywords t kws) (wordCount t)
        ideal (structureScore t) (clarityScore t) (fillerCount t)).strengths := rfl

theorem scoreAnswer_weaknesses (t : String) (kws : List String) (ideal : ℚ) :
    (scoreAnswer t kws ideal).weaknesses =
      (feedbackOf (keywordRatio t kws) (missingKeywords t kws) (wordCount t)
        ideal (structureScore t) (clarityScore t) (fillerCount t)).weaknesses := rfl

theorem scoreAnswer_suggestions (t : String) (kws : List String) (ideal : ℚ) :
    (scoreAnswer t kws ideal).suggestions =
      (feedbackOf (keywordRatio t kws) (missingKeywords t kws) (wordCount t)
        ideal (structureScore t) (clarityScore t) (fillerCount t)).suggestions := rfl

/-- C4 amended: the clarity-block feedback is an if / else-if chain, so the
filler weakness and suggestion are emitted exactly when `fillerCount > 3`
AND the clarity score is below 8; when clarity is at least 8 the strength
branch fires instead and the filler weakness is suppressed. -/
theorem C4_filler_weakness_amended (t : String) (kws : List String) (ideal : ℚ)
    (hf : 3 < fillerCount t) (hc : clarityScore t < 8) :
    "Too many filler words detected" ∈ (scoreAnswer t kws ideal).weaknesses ∧
    "Practice speaking more directly without filler words" ∈
      (scoreAnswer t kws ideal).suggestions := by
  have hclar : clarFeedback (clarityScore t) (fillerCount t) =
      ⟨[], ["Too many filler words detected"],
       ["Practice speaking more directly without filler words"]⟩ := by
    unfold clarFeedback
    rw [if_neg (by linarith), if_pos hf]
  constructor
  · rw [scoreAnswer_weaknesses]
    simp [feedbackOf, FB.append, hclar]
  · rw [scoreAnswer_suggestions]
    simp [feedbackOf, FB.append, hclar]

/-- C4 counterexample: an input with `fillerCount = 4 > 3` whose clarity
score reaches 8, for which the scorer does NOT emit the filler weakness —
the checks are not independent. -/
theorem C4_elseif_counterexample :
    3 < fillerCount answerC4 ∧
    "Too many filler words detected" ∉ (scoreAnswer answerC4 [] 14).weaknesses := by
  have hfc : fillerCount answerC4 = 4 := by decide
  have hwc : wordCount answerC4 = 14 := by decide
  have hsc : sentenceCount answerC4 = 1 := by decide
  have havg : avgSentenceLength answerC4 = 14 := by
    unfold avgSentenceLength
    rw [hsc, hwc]
    norm_num
  have hcl : clarityScore answerC4 = 9 := by
    unfold clarityScore
    rw [havg, hfc]
    unfold clarityFromAvg
    norm_num
  have hst : structureScore answerC4 = 5 := by
    have e2 : jsIncludes (answerNorm answerC4) ['-'] = false := by decide
    have e3 : jsIncludes (answerNorm answerC4) "â€¢".data = false := by decide
    have e4 : jsIncludes (answerNorm answerC4) "1.".data = false := by decide
    have e5 : transitionWords.any (fun tw => jsIncludes (answerNorm answerC4) tw.data)
        = false := by decide
    unfold structureScore
    rw [hsc, e2, e3, e4, e5]
    norm_num
  have hr : keywordRatio answerC4 [] = 0 := by unfold keywordRatio; norm_num
  have hkwfb : kwFeedback (keywordRatio answerC4 []) (missingKeywords answerC4 []) =
      ⟨[], ["Many key concepts were not addressed"],
       ["Review the fundamental concepts related to this topic"]⟩ := by
    rw [hr]; unfold kwFeedback; norm_num
  have hlenfb : lenFeedback (wordCount answerC4) 14 =
      ⟨["Good answer length with appropriate detail"], [], []⟩ := by
    rw [hwc]; unfold lenFeedback; norm_num
  have hstfb : structFeedback (structureScore answerC4) =
      ⟨[], ["Answer could be better organized"],
       ["Use a structured approach: introduce the concept, explain details, give examples"]⟩ := by
    rw [hst]; unfold structFeedback; norm_num
  have hclfb : clarFeedback (clarityScore answerC4) (fillerCount answerC4) =
      ⟨["Clear and easy to understand explanation"], [], []⟩ := by
    rw [hcl, hfc]; unfold clarFeedback; norm_num
  refine ⟨by rw [hfc]; norm_num, ?_⟩
  rw [scoreAnswer_weaknesses]
  unfold feedbackOf
  rw [hkwfb, hlenfb, hstfb, hclfb]
  unfold FB.append
  simp

theorem clarity_um7_lt8 : clarityScore "um um um um um um um" < 8 := by
  have h : fillerCount "um um um um um um um" = 7 := by decide
  have hle : clarityFromAvg (avgSentenceLength "um um um um um um um") 7 ≤ 7 :=
    clarityFromAvg_le_of_many (by norm_num)
  unfold clarityScore
  rw [h]
  linarith

/-- Witness for C4 (amended) at a concrete input. -/
theorem C4_filler_weakness_amended_witness :
    3 < fillerCount "um um um um um um um" ∧
    clarityScore "um um um um um um um" < 8 ∧
    ("Too many filler words detected" ∈
      (scoreAnswer "um um um um um um um" ["a"] 40).weaknesses ∧
    "Practice speaking more directly without filler words" ∈
      (scoreAnswer "um um um um um um um" ["a"] 40).suggestions) :=
  ⟨by decide, clarity_um7_lt8,
   C4_filler_weakness_amended "um um um um um um um" ["a"] 40
     (by decide) clarity_um7_lt8⟩

/-- C6: for any transcript with exactly 67 whitespace tokens of which
exactly 3 are fillers, the estimator computes wordsPerMinute = 134,
rateScore = 99.5, fillerRatio = 3/67, fillerScore within 0.1 of 77.6, and a
confidence score of 87 for clarity input 8. -/
theorem C6_voice_scenario (tr : String) (h67 : Voice.vWordCount tr = 67)
    (h3 : Voice.fillerWordCount tr = 3) :
    Voice.wordsPerMinute tr = 134 ∧
    Voice.rateScore tr = 199/2 ∧
    Voice.fillerRatio tr = 3/67 ∧
    |Voice.fillerScore tr - 776/10| < 1/10 ∧
    Voice.confidenceScore tr 8 = 87 := by
  have hwpm : Voice.wordsPerMinute tr = 134 := by
    unfold Voice.wordsPerMinute; rw [h67]
  have hrate : Voice.rateScore tr = 199/2 := by
    unfold Voice.rateScore; rw [hwpm]; norm_num
  have hratio : Voice.fillerRatio tr = 3/67 := by
    unfold Voice.fillerRatio; rw [h3, h67]; norm_num
  have hfill : Voice.fillerScore tr = 5200/67 := by
    unfold Voice.fillerScore; rw [hratio]
    rw [max_eq_right (by norm_num)]
    norm_num
  have hconf : Voice.confidenceScore tr 8 = 87 := by
    unfold Voice.confidenceScore; rw [hrate, hfill]
    norm_num [round_eq]
  exact ⟨hwpm, hrate, hratio, by rw [hfill, abs_lt]; constructor <;> norm_num, hconf⟩

/-- Witness for C6 at a concrete 67-token transcript. -/
theorem C6_voice_scenario_witness :
    Voice.vWordCount transcriptC6 = 67 ∧ Voice.fillerWordCount transcriptC6 = 3 ∧
    (Voice.wordsPerMinute transcriptC6 = 134 ∧
    Voice.rateScore transcriptC6 = 199/2 ∧
    Voice.fillerRatio transcriptC6 = 3/67 ∧
    |Voice.fillerScore transcriptC6 - 776/10| < 1/10 ∧
    Voice.confidenceScore transcriptC6 8 = 87) :=
  ⟨by decide, by decide, C6_voice_scenario transcriptC6 (by decide) (by decide)⟩

theorem voiceFiller_pred (w : List Char) :
    (Voice.voiceFillerWords.map String.data).contains w = Voice.isVoiceFiller w := by
  rw [Bool.eq_iff_iff]
  show (Voice.voiceFillerWords.map String.data).elem w = true ↔ _
  rw [List.elem_iff]
  simp only [Voice.voiceFillerWords, List.map_cons, List.map_nil, List.mem_cons,
    List.not_mem_nil, or_false, Voice.isVoiceFiller, Bool.or_eq_true, beq_iff_eq]
  tauto

/-- C8 amended: `fillerWordCount` counts the tokens that, after lowercasing
and deleting every '.', ',', '!', '?' ANYWHERE in the token (not only
trailing ones), equal one of the nine fillers. -/
theorem C8_filler_token_count_amended (tr : String) :
    Voice.fillerWordCount tr =
      ((Voice.vWords tr).map Voice.cleanToken).countP Voice.isVoiceFiller := by
  unfold Voice.fillerWordCount
  rw [List.countP_map, List.countP_eq_length_filter]
  congr 1
  apply List.filter_congr
  intro w _
  simp only [Function.comp]
  exact voiceFiller_pred (Voice.cleanToken w)

/-- C8 counterexample: the token "s.o" has no trailing punctuation, so the
trailing-strip reading counts 0 fillers, but the code's delete-everywhere
cleaning turns it into the filler "so" and counts 1. -/
theorem C8_trailing_strip_counterexample :
    Voice.fillerWordCount "s.o" = 1 ∧
    Voice.fillerWordCountTrailing "s.o" = 0 ∧
    Voice.fillerWordCount "s.o" ≠ Voice.fillerWordCountTrailing "s.o" := by
  decide

theorem jsIncludes_nil {pat : List Char} (h : pat ≠ []) :
    jsIncludes [] pat = false := by
  cases pat with
  | nil => exact absurd rfl h
  | cons c cs => rfl

theorem answerNorm_empty : answerNorm "" = [] := rfl

theorem matchedKeywords_empty (kws : List String) (h : ∀ kw ∈ kws, kw ≠ "") :
    matchedKeywords "" kws = [] := by
  unfold matchedKeywords
  apply List.filter_eq_nil_iff.mpr
  intro kw hkw
  have hne : lowerChars kw ≠ [] := by
    intro hc
    apply h kw hkw
    apply String.ext
    exact List.map_eq_nil_iff.mp hc
  rw [answerNorm_empty, jsIncludes_nil hne]
  simp

theorem keywordScore_empty (kws : List String) (h : ∀ kw ∈ kws, kw ≠ "") :
    keywordScore "" kws = 0 := by
  unfold keywordScore keywordRatio
  rw [matchedKeywords_empty kws h]
  split_ifs <;> norm_num

theorem wordCount_empty : wordCount "" = 0 := by decide

theorem lengthScore_empty (ideal : ℚ) (h : 0 < ideal) :
    lengthScore "" ideal = 0 := by
  unfold lengthScore
  rw [wordCount_empty]
  rw [if_pos (by push_cast; linarith)]
  norm_num

theorem structureScore_empty : structureScore "" = 5 := by
  have e2 : jsIncludes (answerNorm "") ['-'] = false := by decide
  have e3 : jsIncludes (answerNorm "") "â€¢".data = false := by decide
  have e4 : jsIncludes (answerNorm "") "1.".data = false := by decide
  have e5 : transitionWords.any (fun tw => jsIncludes (answerNorm "") tw.data)
      = false := by decide
  have hsc : sentenceCount "" = 0 := by decide
  unfold structureScore
  rw [hsc, e2, e3, e4, e5]
  norm_num

theorem fillerCount_empty : fillerCount "" = 0 := by decide

theorem clarityScore_empty : clarityScore "" = 9 := by
  have hsc : sentenceCount "" = 0 := by decide
  have havg : avgSentenceLength "" = 0 := by
    unfold avgSentenceLength
    rw [hsc, wordCount_empty]
    norm_num
  unfold clarityScore
  rw [havg, fillerCount_empty]
  unfold clarityFromAvg
  norm_num

/-- C5 amended: for the empty answer (non-empty keywords, positive ideal
length) the scorer yields keywordScore 0, wordCount 0, lengthScore 0,
structureScore 5, clarityScore 9 (base 7 + 1 zero-sentence choppiness
bonus + 1 zero-filler bonus) and total score 2.8. -/
theorem C5_empty_answer_amended (kws : List String) (ideal : ℚ)
    (hne : ∀ kw ∈ kws, kw ≠ "") (hid : 0 < ideal) :
    keywordScore "" kws = 0 ∧ wordCount "" = 0 ∧
    lengthScore "" ideal = 0 ∧ structureScore "" = 5 ∧
    clarityScore "" = 9 ∧ (scoreAnswer "" kws ideal).score = 28/10 := by
  refine ⟨keywordScore_empty kws hne, wordCount_empty, lengthScore_empty ideal hid,
    structureScore_empty, clarityScore_empty, ?_⟩
  rw [scoreAnswer_score]
  unfold totalScore
  rw [keywordScore_empty kws hne, lengthScore_empty ideal hid,
    structureScore_empty, clarityScore_empty]
  unfold round1
  norm_num [round_eq]

/-- Witness for C5 (amended) at a concrete input. -/
theorem C5_empty_answer_amended_witness :
    (∀ kw ∈ (["a"] : List String), kw ≠ "") ∧ (0:ℚ) < 40 ∧
    (keywordScore "" ["a"] = 0 ∧ wordCount "" = 0 ∧
    lengthScore "" 40 = 0 ∧ structureScore "" = 5 ∧
    clarityScore "" = 9 ∧ (scoreAnswer "" ["a"] 40).score = 28/10) :=
  ⟨by decide, by decide, C5_empty_answer_amended ["a"] 40 (by decide) (by decide)⟩

/-- C5 counterexample: the empty answer's clarity sub-score is 9, not the 8
that "base 7 adjusted only for zero sentences" would give — the
zero-filler +1 bonus also fires. -/
theorem C5_clarity_counterexample :
    (scoreAnswer "" ["a"] 40).clarity = 9 ∧
    (scoreAnswer "" ["a"] 40).clarity ≠ 8 := by
  have h : (scoreAnswer "" ["a"] 40).clarity = 9 := by
    rw [scoreAnswer_clarity, clarityScore_empty]
    unfold round1
    norm_num [round_eq]
  exact ⟨h, by rw [h]; norm_num⟩

theorem C2ev_matched : (matchedKeywords answerC2 keywordsC2).length = 2 := by decide

theorem C2ev_missing : missingKeywords answerC2 keywordsC2 =
    ["divide", "logarithmic"] := by decide

theorem C2ev_wc : wordCount answerC2 = 32 := by decide

theorem C2ev_sc : sentenceCount answerC2 = 3 := by decide

theorem C2ev_fc : fillerCount answerC2 = 0 := by decide

theorem C2ev_ratio : keywordRatio answerC2 keywordsC2 = 1/2 := by
  unfold keywordRatio
  rw [C2ev_matched]
  norm_num [keywordsC2]

theorem C2ev_kws : keywordScore answerC2 keywordsC2 = 5 := by
  unfold keywordScore
  rw [C2ev_ratio]
  norm_num

theorem C2ev_len : lengthScore answerC2 40 = 10 := by
  unfold lengthScore
  rw [C2ev_wc]
  rw [if_neg (by norm_num), if_neg (by norm_num), if_pos (by norm_num)]

theorem C2ev_st : structureScore answerC2 = 8 := by
  have e2 : jsIncludes (answerNorm answerC2) ['-'] = false := by decide
  have e3 : jsIncludes (answerNorm answerC2) "â€¢".data = false := by decide
  have e4 : jsIncludes (answerNorm answerC2) "1.".data = false := by decide
  have e5 : transitionWords.any (fun tw => jsIncludes (answerNorm answerC2) tw.data)
      = true := by decide
  unfold structureScore
  rw [C2ev_sc, e2, e3, e4, e5]
  norm_num

theorem C2ev_avg : avgSentenceLength answerC2 = 32/3 := by
  unfold avgSentenceLength
  rw [C2ev_sc, C2ev_wc]
  norm_num

theorem C2ev_cl : clarityScore answerC2 = 10 := by
  unfold clarityScore
  rw [C2ev_avg, C2ev_fc]
  unfold clarityFromAvg
  rw [if_pos (by norm_num)]
  norm_num [max_def, min_def]

theorem C2ev_score : (scoreAnswer answerC2 keywordsC2 40).score = 38/5 := by
  rw [scoreAnswer_score]
  unfold totalScore
  rw [C2ev_kws, C2ev_len, C2ev_st, C2ev_cl]
  unfold round1
  norm_num [round_eq]

theorem C2ev_ta : (scoreAnswer answerC2 keywordsC2 40).technical_accuracy = 5 := by
  rw [scoreAnswer_ta, C2ev_kws]
  unfold round1
  norm_num [round_eq]

theorem C2ev_kwfb : kwFeedback (keywordRatio answerC2 keywordsC2)
    (missingKeywords answerC2 keywordsC2) =
    ⟨[], ["Some important concepts were missing"],
     ["Consider discussing: divide, logarithmic"]⟩ := by
  rw [C2ev_ratio, C2ev_missing]
  unfold kwFeedback
  rw [if_neg (by norm_num), if_pos (by norm_num), if_pos (by norm_num)]
  rfl

theorem C2ev_lenfb : lenFeedback (wordCount answerC2) 40 =
    ⟨["Good answer length with appropriate detail"], [], []⟩ := by
  rw [C2ev_wc]
  unfold lenFeedback
  rw [if_neg (by norm_num), if_pos (by norm_num)]

theorem C2ev_stfb : structFeedback (structureScore answerC2) =
    ⟨["Well-structured response with clear organization"], [], []⟩ := by
  rw [C2ev_st]
  unfold structFeedback
  rw [if_pos (by norm_num)]

theorem C2ev_clfb : clarFeedback (clarityScore answerC2) (fillerCount answerC2) =
    ⟨["Clear and easy to understand explanation"], [], []⟩ := by
  rw [C2ev_cl, C2ev_fc]
  unfold clarFeedback
  rw [if_pos (by norm_num)]

theorem C2ev_strengths : (scoreAnswer answerC2 keywordsC2 40).strengths =
    ["Good answer length with appropriate detail",
     "Well-structured response with clear organization",
     "Clear and easy to understand explanation"] := by
  rw [scoreAnswer_strengths]
  unfold feedbackOf
  rw [C2ev_kwfb, C2ev_lenfb, C2ev_stfb, C2ev_clfb]
  rfl

theorem C2ev_weaknesses : (scoreAnswer answerC2 keywordsC2 40).weaknesses =
    ["Some important concepts were missing"] := by
  rw [scoreAnswer_weaknesses]
  unfold feedbackOf
  rw [C2ev_kwfb, C2ev_lenfb, C2ev_stfb, C2ev_clfb]
  rfl

theorem C2ev_suggestions : (scoreAnswer answerC2 keywordsC2 40).suggestions =
    ["Consider discussing: divide, logarithmic"] := by
  rw [scoreAnswer_suggestions]
  unfold feedbackOf
  rw [C2ev_kwfb, C2ev_lenfb, C2ev_stfb, C2ev_clfb]
  rfl

/-- C2 counterexample: on the spec's concrete scenario only 2 of 4 keywords
match ("dividing" does not contain the substring "divide"), the ratio is
0.5 (not 0.75), the total score is 7.6 (below the claimed 8.2-8.6 band),
the covered-most-concepts strength is absent and the weaknesses list is
non-empty. -/
theorem C2_scenario_counterexample :
    (matchedKeywords answerC2 keywordsC2).length = 2 ∧
    (matchedKeywords answerC2 keywordsC2).length ≠ 3 ∧
    keywordRatio answerC2 keywordsC2 ≠ 3/4 ∧
    (scoreAnswer answerC2 keywordsC2 40).score = 38/5 ∧
    ¬((82:ℚ)/10 ≤ (scoreAnswer answerC2 keywordsC2 40).score) ∧
    "Covered most of the key technical concepts" ∉
      (scoreAnswer answerC2 keywordsC2 40).strengths ∧
    (scoreAnswer answerC2 keywordsC2 40).weaknesses ≠ [] := by
  refine ⟨C2ev_matched, by rw [C2ev_matched]; norm_num,
    by rw [C2ev_ratio]; norm_num, C2ev_score,
    by rw [C2ev_score]; norm_num, ?_, by rw [C2ev_weaknesses]; simp⟩
  rw [C2ev_strengths]
  decide

/-- C2 amended: on the concrete scenario the scorer matches 2 of 4 keywords
("divide" and "logarithmic" absent), giving keywordRatio 0.5 and
keywordScore 5.0; the 32-word answer lies in the ideal band [32, 60] so
lengthScore = 10; the total score is 7.6; strengths include the
good-answer-length strength; weaknesses is exactly the
missing-concepts weakness. -/
theorem C2_scenario_amended :
    (matchedKeywords answerC2 keywordsC2).length = 2 ∧
    missingKeywords answerC2 keywordsC2 = ["divide", "logarithmic"] ∧
    keywordRatio answerC2 keywordsC2 = 1/2 ∧
    keywordScore answerC2 keywordsC2 = 5 ∧
    wordCount answerC2 = 32 ∧
    lengthScore answerC2 40 = 10 ∧
    (scoreAnswer answerC2 keywordsC2 40).score = 38/5 ∧
    (scoreAnswer answerC2 keywordsC2 40).technical_accuracy = 5 ∧
    "Good answer length with appropriate detail" ∈
      (scoreAnswer answerC2 keywordsC2 40).strengths ∧
    (scoreAnswer answerC2 keywordsC2 40).weaknesses =
      ["Some important concepts were missing"] ∧
    (scoreAnswer answerC2 keywordsC2 40).suggestions =
      ["Consider discussing: divide, logarithmic"] :=
  ⟨C2ev_matched, C2ev_missing, C2ev_ratio, C2ev_kws, C2ev_wc, C2ev_len,
   C2ev_score, C2ev_ta, by rw [C2ev_strengths]; decide,
   C2ev_weaknesses, C2ev_suggestions⟩

end Scorer
